import Mathlib

/-!
Shallow embedding of the two services of the opentelemetry-webshop
repository (src/order/main.go and src/payment/main.go).

Machine integers are modelled as Nat (Go uint, used for record ids) and
Int (Go int, used for amounts); none of the handlers performs arithmetic
that could overflow, so no modular reduction is needed.  The gorm store
is modelled as a list of rows plus the auto-increment counter.  JSON
request bodies are modelled as records of optional fields, matching Go's
json.Unmarshal overlay semantics (absent fields leave the target struct
field unchanged).  Tracing calls are observability-only (they never
affect control flow or data) and are elided.
-/

namespace WebShop

/-- Order record, from `type Order struct` in src/order/main.go:
ID uint (gorm primary key), Item string, Amount int, Paid bool. -/
structure Order where
  id : Nat
  item : String
  amount : Int
  paid : Bool
deriving Repr, DecidableEq

/-- Payment record, from `type Payment struct` in src/payment/main.go:
ID uint (gorm primary key), OrderID uint, Amount int, Status string. -/
structure Payment where
  id : Nat
  orderId : Nat
  amount : Int
  status : String
deriving Repr, DecidableEq

/-- A decoded JSON request body for an Order: each field of the struct
may or may not be present in the JSON object.  `BindJSON` overlays the
present fields on the target struct. -/
structure OrderBody where
  id? : Option Nat
  item? : Option String
  amount? : Option Int
  paid? : Option Bool
deriving Repr, DecidableEq

/-- A decoded JSON request body for a Payment. -/
structure PaymentBody where
  id? : Option Nat
  orderId? : Option Nat
  amount? : Option Int
  status? : Option String
deriving Repr, DecidableEq

/-- Go zero value of the Order struct (`var order Order`). -/
def zeroOrder : Order := ⟨0, "", 0, false⟩

/-- Go zero value of the Payment struct (`var payment Payment`). -/
def zeroPayment : Payment := ⟨0, 0, 0, ""⟩

/-- json.Unmarshal overlay semantics of `c.BindJSON(&order)`: a field
present in the body overwrites the struct field, an absent field leaves
it unchanged. -/
def bindOrder (o : Order) (b : OrderBody) : Order :=
  { id := b.id?.getD o.id
    item := b.item?.getD o.item
    amount := b.amount?.getD o.amount
    paid := b.paid?.getD o.paid }

/-- json.Unmarshal overlay semantics of `c.BindJSON(&payment)`. -/
def bindPayment (p : Payment) (b : PaymentBody) : Payment :=
  { id := b.id?.getD p.id
    orderId := b.orderId?.getD p.orderId
    amount := b.amount?.getD p.amount
    status := b.status?.getD p.status }

/-- The Order Service's gorm-backed table: rows plus the MySQL
auto-increment counter. -/
structure OrderStore where
  rows : List Order
  nextId : Nat
deriving Repr, DecidableEq

/-- The Payment Service's gorm-backed table. -/
structure PaymentStore where
  rows : List Payment
  nextId : Nat
deriving Repr, DecidableEq

/-- Store sanity invariant maintained by MySQL auto-increment: the
counter is positive and strictly above every existing primary key, and
no row has the blank primary key 0. -/
def OrderStore.WF (s : OrderStore) : Prop :=
  0 < s.nextId ∧ ∀ r ∈ s.rows, r.id ≠ 0 ∧ r.id < s.nextId

/-- Store sanity invariant for the payment table. -/
def PaymentStore.WF (s : PaymentStore) : Prop :=
  0 < s.nextId ∧ ∀ r ∈ s.rows, r.id ≠ 0 ∧ r.id < s.nextId

instance (s : OrderStore) : Decidable s.WF := by
  unfold OrderStore.WF; infer_instance

instance (s : PaymentStore) : Decidable s.WF := by
  unfold PaymentStore.WF; infer_instance

/-- gorm `db.First(&order, id)`: look the row up by primary key;
errors (record not found) are modelled as `none`. -/
def firstOrder (s : OrderStore) (id : Nat) : Option Order :=
  s.rows.find? (fun r => r.id = id)

/-- gorm `db.First(&payment, id)` on the payment table. -/
def firstPayment (s : PaymentStore) (id : Nat) : Option Payment :=
  s.rows.find? (fun r => r.id = id)

/-- gorm `db.Create(&order)`: a blank (0) primary key is replaced by the
auto-increment counter, a nonzero primary key is inserted as given;
MySQL rejects a duplicate primary key and advances the counter past any
explicitly inserted key. -/
def gormCreateOrder (s : OrderStore) (o : Order) :
    Except String (Order × OrderStore) :=
  let o' := if o.id = 0 then { o with id := s.nextId } else o
  if s.rows.any (fun r => r.id = o'.id) then
    .error "Duplicate entry for key PRIMARY"
  else
    .ok (o', ⟨s.rows ++ [o'], max s.nextId (o'.id + 1)⟩)

/-- gorm `db.Create(&payment)` on the payment table. -/
def gormCreatePayment (s : PaymentStore) (p : Payment) :
    Except String (Payment × PaymentStore) :=
  let p' := if p.id = 0 then { p with id := s.nextId } else p
  if s.rows.any (fun r => r.id = p'.id) then
    .error "Duplicate entry for key PRIMARY"
  else
    .ok (p', ⟨s.rows ++ [p'], max s.nextId (p'.id + 1)⟩)

/-- gorm `db.Save(&order)`: with a blank primary key it behaves as
Create; with a nonzero primary key it issues an UPDATE of all fields on
the rows matching that key (updating zero rows is not an error). -/
def gormSaveOrder (s : OrderStore) (o : Order) :
    Except String (Order × OrderStore) :=
  if o.id = 0 then gormCreateOrder s o
  else .ok (o, ⟨s.rows.map (fun r => if r.id = o.id then o else r), s.nextId⟩)

/-- A JSON value, as far as the proxy handler's decoded
`map[string]interface{}` is concerned. -/
inductive JVal where
  | str (s : String)
  | num (n : Int)
  | jbool (b : Bool)
  | jnull
deriving Repr, DecidableEq

/-- Lookup of a key in a decoded JSON object (`paymentData["status"]`). -/
def jlookup (k : String) : List (String × JVal) → Option JVal
  | [] => none
  | (k', v) :: rest => if k' = k then some v else jlookup k rest

/-- Outcome of the Order Service's outbound HTTP GET to the Payment
Service in its `getPayment` handler: a transport error (`client.Do`
returns err), or a response with a status code and a body that either
decodes to a JSON object or is malformed (`none`). -/
inductive Downstream where
  | fail
  | resp (code : Nat) (body : Option (List (String × JVal)))
deriving Repr, DecidableEq

/-- Observable outcome of the proxy handler: a JSON success response, an
error response, or a runtime panic of the goroutine (the failed type
assertion `paymentData["status"].(string)`). -/
inductive ProxyResult where
  | json (code : Nat) (body : List (String × JVal))
  | err (code : Nat)
  | panicked
deriving Repr, DecidableEq

/-- Outcome of the Payment Service's outbound PUT /orders/{id}/pay
callback in `processPayment`: a transport error (`client.Do` returns
err) or a response status code. -/
inductive CallbackResult where
  | netError
  | response (code : Nat)
deriving Repr, DecidableEq

/-- The condition `err != nil || resp.StatusCode != http.StatusOK` on
the callback in src/payment/main.go. -/
def callbackFailed : CallbackResult → Bool
  | .netError => true
  | .response code => code ≠ 200

/-- The type assertion `paymentData["status"].(string)` succeeds exactly
when this is `some`. -/
def statusString? (obj : List (String × JVal)) : Option String :=
  match jlookup "status" obj with
  | some (.str s) => some s
  | _ => none

namespace OrderSvc

/-- Handler `createOrder` (src/order/main.go): BindJSON into a zero
Order (400 on bad body), `db.Create` (500 on store error), 201 with the
created record otherwise.  Returns (HTTP status, response record if
any, resulting store). -/
def createOrder (body? : Option OrderBody) (s : OrderStore) :
    Nat × Option Order × OrderStore :=
  match body? with
  | none => (400, none, s)
  | some b =>
    match gormCreateOrder s (bindOrder zeroOrder b) with
    | .error _ => (500, none, s)
    | .ok (o, s') => (201, some o, s')

/-- Handler `getOrder` (src/order/main.go): `db.First` by id, 404 when
it errors, 200 with the record otherwise. -/
def getOrder (id : Nat) (s : OrderStore) : Nat × Option Order :=
  match firstOrder s id with
  | none => (404, none)
  | some o => (200, some o)

/-- Handler `updateOrder` (src/order/main.go): `db.First` by id (404),
BindJSON overlaid onto the fetched record (400 on bad body), `db.Save`
(500 on store error), 200 with the merged record otherwise. -/
def updateOrder (id : Nat) (body? : Option OrderBody) (s : OrderStore) :
    Nat × Option Order × OrderStore :=
  match firstOrder s id with
  | none => (404, none, s)
  | some o =>
    match body? with
    | none => (400, none, s)
    | some b =>
      match gormSaveOrder s (bindOrder o b) with
      | .error _ => (500, none, s)
      | .ok (o', s') => (200, some o', s')

/-- Handler `payOrder` (src/order/main.go), the settlement callback
target: `db.First` by id (404), set Paid true unconditionally,
`db.Save` (500 on store error), 200 with the record otherwise. -/
def payOrder (id : Nat) (s : OrderStore) : Nat × Option Order × OrderStore :=
  match firstOrder s id with
  | none => (404, none, s)
  | some o =>
    match gormSaveOrder s { o with paid := true } with
    | .error _ => (500, none, s)
    | .ok (o', s') => (200, some o', s')

/-- Handler `getPayment` (src/order/main.go): 500 when
PAYMENT_SERVICE_URL is unset (`none` models the empty env var), 500 when
the downstream call fails, 500 on a non-200 downstream status, 500 when
the body fails to decode; on a decoded 200 body it evaluates the type
assertion `paymentData["status"].(string)` while tagging span
attributes — a panic unless the object has a string-valued "status" —
and then returns 200 with the decoded object. -/
def getPayment (cfg : Option String) (d : Downstream) : ProxyResult :=
  match cfg with
  | none => .err 500
  | some _ =>
    match d with
    | .fail => .err 500
    | .resp code body =>
      if code = 200 then
        match body with
        | none => .err 500
        | some obj =>
          match jlookup "status" obj with
          | some (.str _) => .json 200 obj
          | _ => .panicked
      else .err 500

end OrderSvc

namespace PaymentSvc

/-- Handler `processPayment` (src/payment/main.go): BindJSON into a zero
Payment (400 on bad body), overwrite Status with "success", `db.Create`
(500 on store error), 500 if ORDER_SERVICE is unset (`none` models the
empty env var), then the synchronous PUT /orders/{OrderID}/pay callback:
500 when it errors or returns non-200, 201 with the persisted payment
otherwise.  On every path after `db.Create` succeeds the created row
stays in the store. -/
def processPayment (body? : Option PaymentBody) (orderService : Option String)
    (cb : CallbackResult) (s : PaymentStore) :
    Nat × Option Payment × PaymentStore :=
  match body? with
  | none => (400, none, s)
  | some b =>
    match gormCreatePayment s { bindPayment zeroPayment b with status := "success" } with
    | .error _ => (500, none, s)
    | .ok (p, s') =>
      match orderService with
      | none => (500, none, s')
      | some _ =>
        match cb with
        | .netError => (500, none, s')
        | .response code =>
          if code = 200 then (201, some p, s') else (500, none, s')

/-- Handler `getPayment` (src/payment/main.go): `db.First(&payment, id)`
by primary key; on ANY error — including record-not-found — it returns
HTTP 500 with the error text; 200 with the record otherwise. -/
def getPayment (id : Nat) (s : PaymentStore) : Nat × Option Payment :=
  match firstPayment s id with
  | none => (500, none)
  | some p => (200, some p)

end PaymentSvc

/-- JSON encoding of a Payment produced by `c.JSON(http.StatusOK,
payment)` with the struct's json tags. -/
def paymentToJson (p : Payment) : List (String × JVal) :=
  [("id", .num p.id), ("order_id", .num p.orderId),
   ("amount", .num p.amount), ("status", .str p.status)]

/-- The downstream response the Order Service's proxy sees when the
Payment Service serves GET /payments/{orderID} from store `ps`: the
order id is passed as the payment primary key path parameter. -/
def downstreamOf (ps : PaymentStore) (orderID : Nat) : Downstream :=
  match PaymentSvc.getPayment orderID ps with
  | (200, some p) => .resp 200 (some (paymentToJson p))
  | (code, _) => .resp code none

/-- Composition of GET /orders/{id}/payment with the Payment Service:
the proxy forwards the order id as the payment id. -/
def getPaymentStatus (cfg : Option String) (ps : PaymentStore)
    (orderID : Nat) : ProxyResult :=
  OrderSvc.getPayment cfg (downstreamOf ps orderID)

/-! Helper lemmas about the store model. -/

theorem firstOrder_id {s : OrderStore} {id : Nat} {o : Order}
    (h : firstOrder s id = some o) : o.id = id := by
  have := List.find?_some h
  simpa using this

theorem firstPayment_id {s : PaymentStore} {id : Nat} {p : Payment}
    (h : firstPayment s id = some p) : p.id = id := by
  have := List.find?_some h
  simpa using this

theorem firstOrder_mem {s : OrderStore} {id : Nat} {o : Order}
    (h : firstOrder s id = some o) : o ∈ s.rows :=
  List.mem_of_find?_eq_some h

theorem gormCreatePayment_ok {s : PaymentStore} {q p : Payment}
    {s' : PaymentStore} (h : gormCreatePayment s q = .ok (p, s')) :
    p = (if q.id = 0 then { q with id := s.nextId } else q) ∧
    s'.rows = s.rows ++ [p] := by
  simp only [gormCreatePayment] at h
  by_cases hz : q.id = 0
  · simp only [if_pos hz] at h ⊢
    split at h
    · exact absurd h (by simp)
    · injection h with h'
      injection h' with h1 h2
      subst h1; subst h2
      exact ⟨rfl, rfl⟩
  · simp only [if_neg hz] at h ⊢
    split at h
    · exact absurd h (by simp)
    · injection h with h'
      injection h' with h1 h2
      subst h1; subst h2
      exact ⟨rfl, rfl⟩

theorem gormCreateOrder_ok {s : OrderStore} {q o : Order}
    {s' : OrderStore} (h : gormCreateOrder s q = .ok (o, s')) :
    o = (if q.id = 0 then { q with id := s.nextId } else q) ∧
    s'.rows = s.rows ++ [o] := by
  simp only [gormCreateOrder] at h
  by_cases hz : q.id = 0
  · simp only [if_pos hz] at h ⊢
    split at h
    · exact absurd h (by simp)
    · injection h with h'
      injection h' with h1 h2
      subst h1; subst h2
      exact ⟨rfl, rfl⟩
  · simp only [if_neg hz] at h ⊢
    split at h
    · exact absurd h (by simp)
    · injection h with h'
      injection h' with h1 h2
      subst h1; subst h2
      exact ⟨rfl, rfl⟩

theorem find?_map_replace (l : List Order) (id : Nat) (o' : Order)
    (ho : o'.id = id) (h : (l.find? (fun r => r.id = id)).isSome) :
    (l.map (fun r => if r.id = id then o' else r)).find?
      (fun r => r.id = id) = some o' := by
  induction l with
  | nil => simp [List.find?] at h
  | cons a l ih =>
    by_cases ha : a.id = id
    · simp [ha, ho]
    · simp only [List.map_cons, if_neg ha]
      rw [List.find?_cons_of_neg _ (by simpa using ha)] at h ⊢
      exact ih h

theorem firstPayment_rows_append {l : List Payment} {n : Nat} {p : Payment}
    (hfresh : ∀ r ∈ l, ¬ r.id = p.id) :
    firstPayment ⟨l ++ [p], n⟩ p.id = some p := by
  unfold firstPayment
  rw [List.find?_append]
  have h1 : l.find? (fun r => r.id = p.id) = none :=
    List.find?_eq_none.mpr (by intro x hx; simpa using hfresh x hx)
  simp [h1]

theorem firstOrder_rows_append {l : List Order} {n : Nat} {o : Order}
    (hfresh : ∀ r ∈ l, ¬ r.id = o.id) :
    firstOrder ⟨l ++ [o], n⟩ o.id = some o := by
  unfold firstOrder
  rw [List.find?_append]
  have h1 : l.find? (fun r => r.id = o.id) = none :=
    List.find?_eq_none.mpr (by intro x hx; simpa using hfresh x hx)
  simp [h1]

theorem map_replace_idem (l : List Order) (id : Nat) (o' : Order)
    (ho : o'.id = id) :
    (l.map (fun r => if r.id = id then o' else r)).map
      (fun r => if r.id = id then o' else r) =
    l.map (fun r => if r.id = id then o' else r) := by
  rw [List.map_map]
  apply List.map_congr_left
  intro r _
  by_cases hr : r.id = id
  · simp [Function.comp, hr, ho]
  · simp [Function.comp, hr]

theorem wf_fresh_order {s : OrderStore} (hWF : s.WF) :
    ∀ r ∈ s.rows, ¬ r.id = s.nextId :=
  fun r hr => Nat.ne_of_lt (hWF.2 r hr).2

theorem wf_fresh_payment {s : PaymentStore} (hWF : s.WF) :
    ∀ r ∈ s.rows, ¬ r.id = s.nextId :=
  fun r hr => Nat.ne_of_lt (hWF.2 r hr).2

theorem wf_any_order {s : OrderStore} (hWF : s.WF) :
    (s.rows.any fun r => r.id = s.nextId) = false :=
  List.any_eq_false.mpr (by intro r hr; simpa using wf_fresh_order hWF r hr)

theorem wf_any_payment {s : PaymentStore} (hWF : s.WF) :
    (s.rows.any fun r => r.id = s.nextId) = false :=
  List.any_eq_false.mpr (by intro r hr; simpa using wf_fresh_payment hWF r hr)

theorem gormCreateOrder_auto {s : OrderStore} {q : Order} (hz : q.id = 0)
    (hfresh : (s.rows.any fun r => r.id = s.nextId) = false) :
    gormCreateOrder s q =
      .ok ({ q with id := s.nextId },
           ⟨s.rows ++ [{ q with id := s.nextId }], s.nextId + 1⟩) := by
  simp [gormCreateOrder, hz, hfresh, Nat.max_eq_right (Nat.le_succ s.nextId)]

theorem gormCreateOrder_explicit {s : OrderStore} {q : Order} (hz : ¬ q.id = 0)
    (hfresh : (s.rows.any fun r => r.id = q.id) = false) :
    gormCreateOrder s q = .ok (q, ⟨s.rows ++ [q], max s.nextId (q.id + 1)⟩) := by
  simp [gormCreateOrder, hz, hfresh]

theorem gormCreatePayment_auto {s : PaymentStore} {q : Payment} (hz : q.id = 0)
    (hfresh : (s.rows.any fun r => r.id = s.nextId) = false) :
    gormCreatePayment s q =
      .ok ({ q with id := s.nextId },
           ⟨s.rows ++ [{ q with id := s.nextId }], s.nextId + 1⟩) := by
  simp [gormCreatePayment, hz, hfresh, Nat.max_eq_right (Nat.le_succ s.nextId)]

theorem gormCreatePayment_explicit {s : PaymentStore} {q : Payment}
    (hz : ¬ q.id = 0)
    (hfresh : (s.rows.any fun r => r.id = q.id) = false) :
    gormCreatePayment s q = .ok (q, ⟨s.rows ++ [q], max s.nextId (q.id + 1)⟩) := by
  simp [gormCreatePayment, hz, hfresh]

theorem processPayment_store {b : PaymentBody} {cfg : Option String}
    {cb : CallbackResult} {s : PaymentStore} {p : Payment} {s' : PaymentStore}
    (hc : gormCreatePayment s { bindPayment zeroPayment b with status := "success" } =
      .ok (p, s')) :
    (PaymentSvc.processPayment (some b) cfg cb s).2.2 = s' := by
  simp only [PaymentSvc.processPayment]
  rw [hc]
  cases cfg with
  | none => rfl
  | some u =>
    cases cb with
    | netError => rfl
    | response code => by_cases h200 : code = 200 <;> simp [h200]

/-! Claim theorems. -/

/-- C1: when CreatePayment's synchronous callback to the Order Service
fails on the network or returns a non-200 status, the handler answers
HTTP 500 with no payment in the response, yet the Payment row persisted
before the callback remains committed with status "success" — no
compensating delete or update happens — and a subsequent GetPayment on
that payment's id still finds it (HTTP 200). -/
theorem C1_orphan_window :
    ∀ (b : PaymentBody) (url : String) (cb : CallbackResult) (s : PaymentStore),
      s.WF → b.id? = none → callbackFailed cb = true →
      PaymentSvc.processPayment (some b) (some url) cb s =
        (500, none,
         ⟨s.rows ++ [⟨s.nextId, b.orderId?.getD 0, b.amount?.getD 0, "success"⟩],
          s.nextId + 1⟩) ∧
      PaymentSvc.getPayment s.nextId
        ⟨s.rows ++ [⟨s.nextId, b.orderId?.getD 0, b.amount?.getD 0, "success"⟩],
         s.nextId + 1⟩ =
        (200, some ⟨s.nextId, b.orderId?.getD 0, b.amount?.getD 0, "success"⟩) := by
  intro b url cb s hWF hid hcb
  constructor
  · cases cb with
    | netError =>
      simp [PaymentSvc.processPayment, gormCreatePayment, bindPayment,
        zeroPayment, hid, wf_any_payment hWF,
        Nat.max_eq_right (Nat.le_succ s.nextId)]
    | response code =>
      have h200 : ¬ code = 200 := by simpa [callbackFailed] using hcb
      simp [PaymentSvc.processPayment, gormCreatePayment, bindPayment,
        zeroPayment, hid, wf_any_payment hWF, h200,
        Nat.max_eq_right (Nat.le_succ s.nextId)]
  · have := firstPayment_rows_append
      (l := s.rows) (n := s.nextId + 1)
      (p := ⟨s.nextId, b.orderId?.getD 0, b.amount?.getD 0, "success"⟩)
      (by intro r hr; simpa using wf_fresh_payment hWF r hr)
    simp [PaymentSvc.getPayment, this]

/-- Witness for C1: empty store, order_id 4, amount 100, client status
"pending", unreachable Order Service. -/
theorem C1_orphan_window_witness :
    PaymentSvc.processPayment (some ⟨none, some 4, some 100, some "pending"⟩)
      (some "http://order") CallbackResult.netError ⟨[], 1⟩ =
      (500, none, ⟨[⟨1, 4, 100, "success"⟩], 2⟩) ∧
    PaymentSvc.getPayment 1 ⟨[⟨1, 4, 100, "success"⟩], 2⟩ =
      (200, some ⟨1, 4, 100, "success"⟩) :=
  C1_orphan_window ⟨none, some 4, some 100, some "pending"⟩ "http://order"
    CallbackResult.netError ⟨[], 1⟩ (by decide) rfl rfl

/-- C7: creating an order from a body holding only item and amount and
then reading the assigned id back returns the same item and amount with
paid = false. -/
theorem C7_round_trip :
    ∀ (s : OrderStore) (it : String) (am : Int), s.WF →
      OrderSvc.createOrder (some ⟨none, some it, some am, none⟩) s =
        (201, some ⟨s.nextId, it, am, false⟩,
         ⟨s.rows ++ [⟨s.nextId, it, am, false⟩], s.nextId + 1⟩) ∧
      OrderSvc.getOrder s.nextId
        ⟨s.rows ++ [⟨s.nextId, it, am, false⟩], s.nextId + 1⟩ =
        (200, some ⟨s.nextId, it, am, false⟩) := by
  intro s it am hWF
  constructor
  · simp [OrderSvc.createOrder, gormCreateOrder, bindOrder, zeroOrder,
      wf_any_order hWF, Nat.max_eq_right (Nat.le_succ s.nextId)]
  · have := firstOrder_rows_append
      (l := s.rows) (n := s.nextId + 1) (o := ⟨s.nextId, it, am, false⟩)
      (by intro r hr; simpa using wf_fresh_order hWF r hr)
    simp [OrderSvc.getOrder, this]

/-- Witness for C7: item "t-shirt", amount 100, empty store. -/
theorem C7_round_trip_witness :
    OrderSvc.createOrder (some ⟨none, some "t-shirt", some 100, none⟩) ⟨[], 1⟩ =
      (201, some ⟨1, "t-shirt", 100, false⟩,
       ⟨[⟨1, "t-shirt", 100, false⟩], 2⟩) ∧
    OrderSvc.getOrder 1 ⟨[⟨1, "t-shirt", 100, false⟩], 2⟩ =
      (200, some ⟨1, "t-shirt", 100, false⟩) :=
  C7_round_trip ⟨[], 1⟩ "t-shirt" 100 (by decide)

/-- C3 counterexample: on a store with no record for id 1, the Payment
Service's GetPayment returns HTTP 500, not the 404 the claim states. -/
theorem C3_counterexample_notfound_500 :
    PaymentSvc.getPayment 1 ⟨[], 1⟩ = (500, none) ∧ (500 : Nat) ≠ 404 :=
  ⟨rfl, by decide⟩

/-- C3 (amended): for every id with no Payment record in the store,
GetPayment(id) fails with HTTP 500 — the handler maps every store-lookup
failure, record-not-found included, to 500 and never returns 404. -/
theorem C3_notfound_maps_to_500 :
    ∀ (id : Nat) (s : PaymentStore), firstPayment s id = none →
      PaymentSvc.getPayment id s = (500, none) := by
  intro id s h
  simp [PaymentSvc.getPayment, h]

/-- Witness for C3: instantiated on the empty store at id 1. -/
theorem C3_notfound_maps_to_500_witness :
    PaymentSvc.getPayment 1 ⟨[], 1⟩ = (500, none) :=
  C3_notfound_maps_to_500 1 ⟨[], 1⟩ rfl

/-- C4 counterexample: a CreateOrder body supplying `paid = true` yields
a created record with `paid = true`, so the created record is not
`paid = false` regardless of the request body. -/
theorem C4_counterexample_paid_from_body :
    ¬ (∀ o : Order,
        (OrderSvc.createOrder (some ⟨none, some "t-shirt", some 100, some true⟩)
          ⟨[], 1⟩).2.1 = some o → o.paid = false) := by
  intro h
  have hfalse := h ⟨1, "t-shirt", 100, true⟩ (by decide)
  simp at hfalse

/-- C4 (amended): for every CreateOrder request that decodes and
persists (body with no client id, well-formed store), the created
record's `paid` equals the body's `paid` field, defaulting to false when
the field is absent — the handler does not force it to false. -/
theorem C4_paid_from_body :
    ∀ (s : OrderStore) (b : OrderBody), s.WF → b.id? = none →
      (OrderSvc.createOrder (some b) s).2.1 =
        some ⟨s.nextId, b.item?.getD "", b.amount?.getD 0, b.paid?.getD false⟩ := by
  intro s b hWF hid
  have hfresh : (s.rows.any fun r => r.id = s.nextId) = false := by
    refine List.any_eq_false.mpr ?_
    intro r hr
    simpa using Nat.ne_of_lt (hWF.2 r hr).2
  simp only [OrderSvc.createOrder, gormCreateOrder, bindOrder, zeroOrder, hid,
    Option.getD_none]
  simp [hfresh]

/-- Witness for C4 (amended): a body carrying `paid = true` on the empty
store. -/
theorem C4_paid_from_body_witness :
    (OrderSvc.createOrder (some ⟨none, some "t-shirt", some 100, some true⟩)
      ⟨[], 1⟩).2.1 = some ⟨1, "t-shirt", 100, true⟩ :=
  C4_paid_from_body ⟨[], 1⟩ ⟨none, some "t-shirt", some 100, some true⟩
    (by decide) rfl

/-- C2 counterexample: the proxy keys the downstream read by the PAYMENT
primary key, not by the order_id field.  With a single payment whose id
is 1 but whose order_id is 2, GetPaymentStatus(1) returns that payment,
whose order_id (2) differs from the requested order id (1). -/
theorem C2_counterexample_keyed_by_payment_id :
    getPaymentStatus (some "u") ⟨[⟨1, 2, 100, "success"⟩], 3⟩ 1 =
      .json 200 (paymentToJson ⟨1, 2, 100, "success"⟩) ∧
    jlookup "order_id" (paymentToJson ⟨1, 2, 100, "success"⟩) =
      some (JVal.num 2) ∧
    ¬ ((2 : Int) = 1) :=
  ⟨by decide, by decide, by decide⟩

/-- C2 (amended): GetPaymentStatus(id) proxies to the Payment Service's
GetPayment with the ORDER id passed as the PAYMENT id — the payment
returned is the one whose id field equals the requested order's id —
failing 500 when the downstream address is unconfigured, 500 when the
call fails or returns non-success, and 500 when the response body is
malformed. -/
theorem C2_proxy_by_payment_id :
    ∀ (u : String) (d : Downstream) (c : Nat)
      (bdy : Option (List (String × JVal))) (ps : PaymentStore) (id : Nat)
      (p : Payment),
      OrderSvc.getPayment none d = .err 500 ∧
      OrderSvc.getPayment (some u) .fail = .err 500 ∧
      (¬ c = 200 → OrderSvc.getPayment (some u) (.resp c bdy) = .err 500) ∧
      OrderSvc.getPayment (some u) (.resp 200 none) = .err 500 ∧
      (firstPayment ps id = some p →
        getPaymentStatus (some u) ps id = .json 200 (paymentToJson p) ∧
        p.id = id) := by
  intro u d c bdy ps id p
  refine ⟨by simp [OrderSvc.getPayment], rfl, ?_, rfl, ?_⟩
  · intro hc
    simp [OrderSvc.getPayment, hc]
  · intro h
    refine ⟨?_, firstPayment_id h⟩
    simp [getPaymentStatus, downstreamOf, PaymentSvc.getPayment, h,
      OrderSvc.getPayment, paymentToJson, jlookup]

/-- Witness for C2 (amended): unconfigured address, failing call,
non-200 status 503, malformed body, and a successful lookup of payment
id 1. -/
theorem C2_proxy_by_payment_id_witness :
    OrderSvc.getPayment none .fail = .err 500 ∧
    OrderSvc.getPayment (some "u") .fail = .err 500 ∧
    (¬ (503 : Nat) = 200 → OrderSvc.getPayment (some "u") (.resp 503 none) = .err 500) ∧
    OrderSvc.getPayment (some "u") (.resp 200 none) = .err 500 ∧
    (firstPayment ⟨[⟨1, 4, 100, "success"⟩], 2⟩ 1 = some ⟨1, 4, 100, "success"⟩ →
      getPaymentStatus (some "u") ⟨[⟨1, 4, 100, "success"⟩], 2⟩ 1 =
        .json 200 (paymentToJson ⟨1, 4, 100, "success"⟩) ∧
      (⟨1, 4, 100, "success"⟩ : Payment).id = 1) :=
  C2_proxy_by_payment_id "u" .fail 503 none ⟨[⟨1, 4, 100, "success"⟩], 2⟩ 1
    ⟨1, 4, 100, "success"⟩

/-- C6: MarkPaid fetches the order by id (404 when no record exists),
sets paid = true unconditionally with no check of the current paid
state, and persists; applying it a second time to the resulting store
reproduces the first call's result exactly — idempotent in effect. -/
theorem C6_markPaid_idempotent :
    ∀ (s : OrderStore) (id : Nat), s.WF →
      (firstOrder s id = none → OrderSvc.payOrder id s = (404, none, s)) ∧
      (∀ o, firstOrder s id = some o →
        OrderSvc.payOrder id s =
          (200, some { o with paid := true },
           ⟨s.rows.map (fun r => if r.id = id then { o with paid := true } else r),
            s.nextId⟩) ∧
        OrderSvc.payOrder id
          ⟨s.rows.map (fun r => if r.id = id then { o with paid := true } else r),
           s.nextId⟩ =
          OrderSvc.payOrder id s) := by
  intro s id hWF
  constructor
  · intro h
    simp [OrderSvc.payOrder, h]
  · intro o h
    have hid : o.id = id := firstOrder_id h
    subst hid
    have hnz : ¬ o.id = 0 := (hWF.2 o (firstOrder_mem h)).1
    have h1 : OrderSvc.payOrder o.id s =
        (200, some { o with paid := true },
         ⟨s.rows.map (fun r => if r.id = o.id then { o with paid := true } else r),
          s.nextId⟩) := by
      simp [OrderSvc.payOrder, h, gormSaveOrder, hnz]
    have hsome : (s.rows.find? (fun r => r.id = o.id)).isSome := by
      unfold firstOrder at h
      rw [h]
      rfl
    have hfind : firstOrder
        ⟨s.rows.map (fun r => if r.id = o.id then { o with paid := true } else r),
         s.nextId⟩ o.id = some { o with paid := true } :=
      find?_map_replace s.rows o.id { o with paid := true } rfl hsome
    have h2 : OrderSvc.payOrder o.id
        ⟨s.rows.map (fun r => if r.id = o.id then { o with paid := true } else r),
         s.nextId⟩ =
        (200, some { o with paid := true },
         ⟨s.rows.map (fun r => if r.id = o.id then { o with paid := true } else r),
          s.nextId⟩) := by
      simp [OrderSvc.payOrder, hfind, gormSaveOrder, hnz,
        map_replace_idem s.rows o.id { o with paid := true } rfl]
    rw [h1, h2]
    exact ⟨rfl, rfl⟩

/-- Witness for C6: store holding the single unpaid order 1. -/
theorem C6_markPaid_idempotent_witness :
    OrderSvc.payOrder 1 ⟨[⟨1, "a", 1, false⟩], 2⟩ =
      (200, some ⟨1, "a", 1, true⟩, ⟨[⟨1, "a", 1, true⟩], 2⟩) ∧
    OrderSvc.payOrder 1 ⟨[⟨1, "a", 1, true⟩], 2⟩ =
      OrderSvc.payOrder 1 ⟨[⟨1, "a", 1, false⟩], 2⟩ :=
  (C6_markPaid_idempotent ⟨[⟨1, "a", 1, false⟩], 2⟩ 1 (by decide)).2
    ⟨1, "a", 1, false⟩ rfl

/-- C8 counterexample: two CreateOrder bodies differing only in the
client-supplied id (absent vs 7) produce records with ids 1 and 7; two
CreatePayment bodies differing only in the client-supplied id (absent vs
9) leave rows with ids 1 and 9 — the client-supplied id does influence
the created row's id in both services. -/
theorem C8_counterexample_client_id :
    ((OrderSvc.createOrder (some ⟨none, some "a", some 1, none⟩)
        ⟨[], 1⟩).2.1.map Order.id) = some 1 ∧
    ((OrderSvc.createOrder (some ⟨some 7, some "a", some 1, none⟩)
        ⟨[], 1⟩).2.1.map Order.id) = some 7 ∧
    ¬ ((some 1 : Option Nat) = some 7) ∧
    ((PaymentSvc.processPayment (some ⟨none, some 4, some 1, none⟩)
        (some "u") (.response 200) ⟨[], 1⟩).2.2.rows.map Payment.id) = [1] ∧
    ((PaymentSvc.processPayment (some ⟨some 9, some 4, some 1, none⟩)
        (some "u") (.response 200) ⟨[], 1⟩).2.2.rows.map Payment.id) = [9] ∧
    ¬ (([1] : List Nat) = [9]) := by
  refine ⟨by decide, by decide, by decide, by decide, by decide, by decide⟩

/-- C8 (amended): the created record's id is store-assigned only when
the body's id field is absent or 0; a nonzero client-supplied id that
does not collide with an existing row becomes the created record's id,
in both CreateOrder and CreatePayment. -/
theorem C8_client_supplied_id :
    ∀ (s : OrderStore) (b : OrderBody) (ps : PaymentStore) (pb : PaymentBody)
      (cfg : Option String) (cb : CallbackResult),
      ((∀ r ∈ s.rows,
          ¬ r.id = (if b.id?.getD 0 = 0 then s.nextId else b.id?.getD 0)) →
        (OrderSvc.createOrder (some b) s).2.1 =
          some ⟨(if b.id?.getD 0 = 0 then s.nextId else b.id?.getD 0),
                b.item?.getD "", b.amount?.getD 0, b.paid?.getD false⟩) ∧
      ((∀ r ∈ ps.rows,
          ¬ r.id = (if pb.id?.getD 0 = 0 then ps.nextId else pb.id?.getD 0)) →
        (PaymentSvc.processPayment (some pb) cfg cb ps).2.2.rows =
          ps.rows ++ [⟨(if pb.id?.getD 0 = 0 then ps.nextId else pb.id?.getD 0),
                       pb.orderId?.getD 0, pb.amount?.getD 0, "success"⟩]) := by
  intro s b ps pb cfg cb
  constructor
  · intro hall
    by_cases hz : b.id?.getD 0 = 0
    · rw [if_pos hz] at hall
      have hfresh : (s.rows.any fun r => r.id = s.nextId) = false :=
        List.any_eq_false.mpr (by intro r hr; simpa using hall r hr)
      simp [OrderSvc.createOrder, gormCreateOrder, bindOrder, zeroOrder, hz,
        hfresh]
    · rw [if_neg hz] at hall
      have hfresh : (s.rows.any fun r => r.id = b.id?.getD 0) = false :=
        List.any_eq_false.mpr (by intro r hr; simpa using hall r hr)
      simp [OrderSvc.createOrder, gormCreateOrder, bindOrder, zeroOrder, hz,
        hfresh]
  · intro hall
    by_cases hz : pb.id?.getD 0 = 0
    · rw [if_pos hz] at hall
      have hfresh : (ps.rows.any fun r => r.id = ps.nextId) = false :=
        List.any_eq_false.mpr (by intro r hr; simpa using hall r hr)
      have hq : ({ bindPayment zeroPayment pb with status := "success" } : Payment).id = 0 := by
        simpa [bindPayment, zeroPayment] using hz
      have hc := gormCreatePayment_auto
        (s := ps) (q := { bindPayment zeroPayment pb with status := "success" })
        hq hfresh
      rw [processPayment_store hc]
      simp [bindPayment, zeroPayment, hz]
    · rw [if_neg hz] at hall
      have hq : ({ bindPayment zeroPayment pb with status := "success" } : Payment).id =
          pb.id?.getD 0 := by
        simp [bindPayment, zeroPayment]
      have hfresh : (ps.rows.any fun r =>
          r.id = ({ bindPayment zeroPayment pb with status := "success" } : Payment).id) = false := by
        rw [hq]
        exact List.any_eq_false.mpr (by intro r hr; simpa using hall r hr)
      have hc := gormCreatePayment_explicit
        (s := ps) (q := { bindPayment zeroPayment pb with status := "success" })
        (by rw [hq]; exact hz) hfresh
      rw [processPayment_store hc]
      simp [bindPayment, zeroPayment, hz]

/-- Witness for C8 (amended): empty stores, order body with id 7,
payment body with id 9. -/
theorem C8_client_supplied_id_witness :
    ((∀ r ∈ ([] : List Order), ¬ r.id = (if (7 : Nat) = 0 then 1 else 7)) →
      (OrderSvc.createOrder (some ⟨some 7, some "a", some 1, none⟩)
        ⟨[], 1⟩).2.1 = some ⟨(if (7 : Nat) = 0 then 1 else 7), "a", 1, false⟩) ∧
    ((∀ r ∈ ([] : List Payment), ¬ r.id = (if (9 : Nat) = 0 then 1 else 9)) →
      (PaymentSvc.processPayment (some ⟨some 9, some 4, some 1, none⟩)
        (some "u") (.response 200) ⟨[], 1⟩).2.2.rows =
        [] ++ [⟨(if (9 : Nat) = 0 then 1 else 9), 4, 1, "success"⟩]) :=
  C8_client_supplied_id ⟨[], 1⟩ ⟨some 7, some "a", some 1, none⟩ ⟨[], 1⟩
    ⟨some 9, some 4, some 1, none⟩ (some "u") (.response 200)

/-- C9 counterexample: a body that retargets the id (to 7, naming no
existing row) and sets paid = true yields a 200 response carrying the
merged record, but Save's UPDATE matches no row: the store is unchanged
and no persisted record received paid = true. -/
theorem C9_counterexample_retargeted_save :
    OrderSvc.updateOrder 5 (some ⟨some 7, none, none, some true⟩)
      ⟨[⟨5, "a", 1, false⟩], 6⟩ =
      (200, some ⟨7, "a", 1, true⟩, ⟨[⟨5, "a", 1, false⟩], 6⟩) ∧
    ((⟨[⟨5, "a", 1, false⟩], 6⟩ : OrderStore).rows.all
      (fun r => r.paid = false)) = true := by
  refine ⟨by decide, by decide⟩

/-- C9 (amended): UpdateOrder overlays the body on the fetched record —
absent fields keep stored values, present fields (paid and id included)
take the body's value — in the record it returns and saves; the save
overwrites exactly the rows whose id equals the MERGED id, so when the
body retargets id to a row that does not exist, no stored row changes. -/
theorem C9_overlay_saved_under_merged_id :
    ∀ (s : OrderStore) (id : Nat) (b : OrderBody) (o : Order),
      firstOrder s id = some o → ¬ b.id?.getD o.id = 0 →
      OrderSvc.updateOrder id (some b) s =
        (200,
         some ⟨b.id?.getD o.id, b.item?.getD o.item, b.amount?.getD o.amount,
               b.paid?.getD o.paid⟩,
         ⟨s.rows.map (fun r =>
            if r.id = b.id?.getD o.id
            then ⟨b.id?.getD o.id, b.item?.getD o.item, b.amount?.getD o.amount,
                  b.paid?.getD o.paid⟩
            else r),
          s.nextId⟩) := by
  intro s id b o h hnz
  simp [OrderSvc.updateOrder, h, gormSaveOrder, bindOrder, hnz]

/-- Witness for C9 (amended): body retargeting id 5 to 7, renaming the
item and setting paid. -/
theorem C9_overlay_saved_under_merged_id_witness :
    OrderSvc.updateOrder 5 (some ⟨some 7, some "b", none, some true⟩)
      ⟨[⟨5, "a", 1, false⟩], 6⟩ =
      (200, some ⟨7, "b", 1, true⟩, ⟨[⟨5, "a", 1, false⟩], 6⟩) :=
  C9_overlay_saved_under_merged_id ⟨[⟨5, "a", 1, false⟩], 6⟩ 5
    ⟨some 7, some "b", none, some true⟩ ⟨5, "a", 1, false⟩ rfl (by decide)

/-- C10: on a downstream 200 response whose decoded object lacks a
string-valued "status" key the proxy handler panics (the unchecked type
assertion), and it completes with 200 and the decoded object exactly
when the "status" key holds a string. -/
theorem C10_status_assertion_panics :
    ∀ (u : String) (obj : List (String × JVal)),
      (statusString? obj = none →
        OrderSvc.getPayment (some u) (.resp 200 (some obj)) = .panicked) ∧
      (∀ st, statusString? obj = some st →
        OrderSvc.getPayment (some u) (.resp 200 (some obj)) = .json 200 obj) := by
  intro u obj
  constructor
  · intro h
    unfold statusString? at h
    cases hj : jlookup "status" obj with
    | none => simp [OrderSvc.getPayment, hj]
    | some v =>
      rw [hj] at h
      cases v with
      | str st => exact absurd h (by simp)
      | num n => simp [OrderSvc.getPayment, hj]
      | jbool x => simp [OrderSvc.getPayment, hj]
      | jnull => simp [OrderSvc.getPayment, hj]
  · intro st h
    unfold statusString? at h
    cases hj : jlookup "status" obj with
    | none => rw [hj] at h; exact absurd h (by simp)
    | some v =>
      rw [hj] at h
      cases v with
      | str s2 => simp [OrderSvc.getPayment, hj]
      | num n => exact absurd h (by simp)
      | jbool x => exact absurd h (by simp)
      | jnull => exact absurd h (by simp)

/-- Witness for C10: a 200 body without "status" panics; one with a
string "status" succeeds. -/
theorem C10_status_assertion_panics_witness :
    OrderSvc.getPayment (some "u") (.resp 200 (some [("amount", JVal.num 5)])) =
      .panicked ∧
    OrderSvc.getPayment (some "u")
      (.resp 200 (some [("status", JVal.str "success")])) =
      .json 200 [("status", JVal.str "success")] :=
  ⟨(C10_status_assertion_panics "u" [("amount", JVal.num 5)]).1 (by decide),
   (C10_status_assertion_panics "u" [("status", JVal.str "success")]).2
     "success" (by decide)⟩

/-- C5: for every CreatePayment request that decodes, whatever status
the client supplied is overwritten — the returned Payment (when one is
returned) has status "success", and every row the handler adds to the
store has status "success". -/
theorem C5_status_overwritten :
    ∀ (b : PaymentBody) (cfg : Option String) (cb : CallbackResult)
      (s : PaymentStore),
      (∀ p, (PaymentSvc.processPayment (some b) cfg cb s).2.1 = some p →
        p.status = "success") ∧
      (∀ p, p ∈ (PaymentSvc.processPayment (some b) cfg cb s).2.2.rows →
        p ∈ s.rows ∨ p.status = "success") := by
  intro b cfg cb s
  simp only [PaymentSvc.processPayment]
  cases hc : gormCreatePayment s { bindPayment zeroPayment b with status := "success" } with
  | error e => exact ⟨by simp, fun p hp => Or.inl (by simpa using hp)⟩
  | ok v =>
    obtain ⟨p, s'⟩ := v
    obtain ⟨hp, hrows⟩ := gormCreatePayment_ok hc
    have hps : p.status = "success" := by
      rw [hp]; split <;> rfl
    constructor
    · intro q hq
      cases cfg with
      | none => simp at hq
      | some u =>
        cases cb with
        | netError => simp at hq
        | response code =>
          by_cases h200 : code = 200
          · simp [h200] at hq
            cases hq
            exact hps
          · simp [h200] at hq
    · intro q hq
      have hmem : q ∈ s'.rows → q ∈ s.rows ∨ q.status = "success" := by
        intro hqs
        rw [hrows] at hqs
        rcases List.mem_append.mp hqs with h | h
        · exact Or.inl h
        · simp at h
          cases h
          exact Or.inr hps
      cases cfg with
      | none => exact hmem (by simpa using hq)
      | some u =>
        cases cb with
        | netError => exact hmem (by simpa using hq)
        | response code =>
          by_cases h200 : code = 200
          · simp [h200] at hq
            exact hmem hq
          · simp [h200] at hq
            exact hmem hq

/-- Witness for C5: a body carrying status "pending", callback
reachable, on the empty store. -/
theorem C5_status_overwritten_witness :
    (∀ p, (PaymentSvc.processPayment (some ⟨none, some 4, some 100, some "pending"⟩)
      (some "u") (.response 200) ⟨[], 1⟩).2.1 = some p → p.status = "success") ∧
    (∀ p, p ∈ (PaymentSvc.processPayment (some ⟨none, some 4, some 100, some "pending"⟩)
      (some "u") (.response 200) ⟨[], 1⟩).2.2.rows →
      p ∈ (⟨[], 1⟩ : PaymentStore).rows ∨ p.status = "success") :=
  C5_status_overwritten ⟨none, some 4, some 100, some "pending"⟩ (some "u")
    (.response 200) ⟨[], 1⟩

end WebShop

